import Mathlib

/-!
Shallow embedding of the `math_engine` Rust library (vectors, points,
matrices, affine transforms, quaternions, planes, Plücker lines) for
checking the repository's specification.

Scalars: the source stores `f32`; the embedding uses exact rationals `ℚ`,
so that the algebraic content of each operation is preserved and every
concrete evaluation is decidable.  Spec-level approximate comparisons
("within float epsilon") become exact equalities in this model.

Rust panics (failed `assert!`, explicit `panic!`, and out-of-bounds array
indexing) are modelled by `Option`-valued functions returning `none`.
Each definition transliterates the corresponding Rust item; source
locations are given in the doc comments.  Storage is column-major
throughout: `n[col][row]` in the source.
-/

namespace MathEngine

/-- Rust `Vector2` (src/vector2.rs): components `x`, `y`. -/
structure Vector2 where
  x : ℚ
  y : ℚ
deriving DecidableEq, Repr

namespace Vector2

/-- Rust `Vector2::new` (src/vector2.rs). -/
def new (x y : ℚ) : Vector2 := ⟨x, y⟩

/-- Rust `impl Index<usize> for Vector2` (src/vector2.rs): `assert!(i < 2)`,
then `x` for `i == 0`, else `y`.  The assertion is modelled by `none`. -/
def index (v : Vector2) (i : Nat) : Option ℚ :=
  if i < 2 then some (if i = 0 then v.x else v.y) else none

end Vector2

/-- Rust `Vector3` (src/vector3.rs): components `x`, `y`, `z`. -/
structure Vector3 where
  x : ℚ
  y : ℚ
  z : ℚ
deriving DecidableEq, Repr

/-- Rust `Point3` (src/point3.rs): components `x`, `y`, `z`. -/
structure Point3 where
  x : ℚ
  y : ℚ
  z : ℚ
deriving DecidableEq, Repr

namespace Vector3

/-- Rust `Vector3::new` (src/vector3.rs). -/
def new (x y z : ℚ) : Vector3 := ⟨x, y, z⟩

/-- Rust `Vector3::dot` (src/vector3.rs). -/
def dot (v other : Vector3) : ℚ :=
  v.x * other.x + v.y * other.y + v.z * other.z

/-- Rust `Vector3::cross` (src/vector3.rs).  Transliterated as written: the
third component of the source is `self.x * other.y - self.y * other.z`
(not `- self.y * other.x`). -/
def cross (v other : Vector3) : Vector3 :=
  new (v.y * other.z - v.z * other.y)
      (v.z * other.x - v.x * other.z)
      (v.x * other.y - v.y * other.z)

/-- Rust `impl Add for Vector3` (src/vector3.rs). -/
def add (v other : Vector3) : Vector3 :=
  new (v.x + other.x) (v.y + other.y) (v.z + other.z)

/-- Rust `impl Sub for Vector3` (src/vector3.rs). -/
def sub (v other : Vector3) : Vector3 :=
  new (v.x - other.x) (v.y - other.y) (v.z - other.z)

/-- Rust `impl Mul<f32> for Vector3` (src/vector3.rs). -/
def smul (v : Vector3) (s : ℚ) : Vector3 :=
  new (v.x * s) (v.y * s) (v.z * s)

/-- Rust `impl Div<f32> for Vector3` (src/vector3.rs). -/
def divs (v : Vector3) (s : ℚ) : Vector3 :=
  new (v.x / s) (v.y / s) (v.z / s)

/-- Rust `impl From<Point3> for Vector3` (src/vector3.rs). -/
def fromPoint3 (p : Point3) : Vector3 := new p.x p.y p.z

end Vector3

namespace Point3

/-- Rust `Point3::new` (src/point3.rs). -/
def new (x y z : ℚ) : Point3 := ⟨x, y, z⟩

/-- Rust `impl From<Vector3> for Point3` (src/point3.rs). -/
def fromVector3 (v : Vector3) : Point3 := ⟨v.x, v.y, v.z⟩

end Point3

/-- Rust `Matrix2` (src/matrix2.rs): two column vectors, `n[col][row]`. -/
structure Matrix2 where
  n0 : Vector2
  n1 : Vector2
deriving DecidableEq, Repr

namespace Matrix2

/-- Rust `Matrix2::new(n00, n01, n10, n11)` (src/matrix2.rs): stores
`[Vector2::new(n00, n10), Vector2::new(n01, n11)]` (column-major). -/
def new (n00 n01 n10 n11 : ℚ) : Matrix2 :=
  ⟨Vector2.new n00 n10, Vector2.new n01 n11⟩

/-- Rust `Matrix2::determinant` (src/matrix2.rs):
`n[0][0]*n[1][1] - n[1][0]*n[0][1]`. -/
def determinant (m : Matrix2) : ℚ :=
  m.n0.x * m.n1.y - m.n1.x * m.n0.y

/-- Rust `Matrix2::inverse` (src/matrix2.rs). -/
def inverse (m : Matrix2) : Matrix2 :=
  let inv := 1 / m.determinant
  new (m.n1.y * inv) (-m.n1.x * inv) (-m.n0.y * inv) (m.n0.x * inv)

/-- Rust `Matrix2::identity` (src/matrix2.rs): `new(1, 0, 0, 1)`. -/
def identity : Matrix2 := new 1 0 0 1

/-- Rust `impl Mul<Matrix2> for Matrix2` (src/matrix2.rs), transliterated as
written (`other[(r, c)]` is `other.n[c][r]`):
first argument `self.n[0][0]*other[(0,0)] + self.n[0][1]*other[(1,0)]`,
and the fourth argument reads `self.n[0][1]` in its second term. -/
def mul (m other : Matrix2) : Matrix2 :=
  new (m.n0.x * other.n0.x + m.n0.y * other.n0.y)
      (m.n0.x * other.n1.x + m.n0.y * other.n1.y)
      (m.n1.x * other.n0.x + m.n1.y * other.n0.y)
      (m.n1.x * other.n1.x + m.n0.y * other.n1.y)

/-- Rust `impl Index<usize> for Matrix2` (src/matrix2.rs): `assert!(col < 2)`
then column `col`. -/
def index_col (m : Matrix2) (col : Nat) : Option Vector2 :=
  if col < 2 then some (if col = 0 then m.n0 else m.n1) else none

/-- Rust `impl Index<(usize, usize)> for Matrix2` (src/matrix2.rs):
`assert!(col < 2 && row < 2)` then `n[col][row]`. -/
def index (m : Matrix2) (row col : Nat) : Option ℚ :=
  if col < 2 ∧ row < 2 then
    some (if col = 0 then (if row = 0 then m.n0.x else m.n0.y)
          else (if row = 0 then m.n1.x else m.n1.y))
  else none

/-- Rust `Matrix2::at(i, j)` (src/matrix2.rs): `self[j][i]`, i.e. the `usize`
index operator on the matrix (asserting `j < 2`) followed by the `usize`
index operator on the column vector (asserting `i < 2`). -/
def at_opt (m : Matrix2) (i j : Nat) : Option ℚ :=
  (m.index_col j).bind (fun v => v.index i)

end Matrix2

/-- Rust `Matrix3` (src/matrix3.rs): three column vectors, `n[col][row]`. -/
structure Matrix3 where
  n0 : Vector3
  n1 : Vector3
  n2 : Vector3
deriving DecidableEq, Repr

namespace Matrix3

/-- Rust `Matrix3::new(a, …, i)` (src/matrix3.rs): row-major arguments stored
as columns `[Vector3::new(a, d, g), Vector3::new(b, e, h),
Vector3::new(c, f, i)]`. -/
def new (a b c d e f g h i : ℚ) : Matrix3 :=
  ⟨Vector3.new a d g, Vector3.new b e h, Vector3.new c f i⟩

/-- Rust `Matrix3::new_with_vecs` (src/matrix3.rs). -/
def new_with_vecs (a b c : Vector3) : Matrix3 := ⟨a, b, c⟩

/-- Rust `Matrix3::identity` (src/matrix3.rs), transliterated as written:
`new(1.0, 0.0, 0.0, 0.0, 0.0, 1.0, 0.0, 0.0, 0.0)`. -/
def identity : Matrix3 := new 1 0 0 0 0 1 0 0 0

/-- Rust `Matrix3::determinant` (src/matrix3.rs), transliterated with the
source's own parenthesisation and indices. -/
def determinant (m : Matrix3) : ℚ :=
  (m.n0.x * m.n1.y * m.n2.z - m.n2.y * m.n1.z)
    - m.n1.x * (m.n0.y * m.n2.z - m.n2.y * m.n2.x)
    + m.n0.z * (m.n0.y * m.n1.z - m.n1.y * m.n0.z)

/-- Rust `Matrix3::inverse` (src/matrix3.rs): rows `b×c`, `c×a`, `a×b`
scaled by `1 / ((a×b)·c)`, using the source's `Vector3::cross`. -/
def inverse (m : Matrix3) : Matrix3 :=
  let a := m.n0
  let b := m.n1
  let c := m.n2
  let r0 := b.cross c
  let r1 := c.cross a
  let r2 := a.cross b
  let inv := 1 / r2.dot c
  new (r0.x * inv) (r0.y * inv) (r0.z * inv)
      (r1.x * inv) (r1.y * inv) (r1.z * inv)
      (r2.x * inv) (r2.y * inv) (r2.z * inv)

/-- Rust `impl Mul<Vector3> for Matrix3` (src/matrix3.rs). -/
def mulVector3 (m : Matrix3) (other : Vector3) : Vector3 :=
  Vector3.new
    (m.n0.x * other.x + m.n1.x * other.y + m.n2.x * other.z)
    (m.n0.y * other.x + m.n1.y * other.y + m.n2.y * other.z)
    (m.n0.z * other.x + m.n1.z * other.y + m.n2.z * other.z)

/-- Rust `impl Mul<Matrix3> for Matrix3` (src/matrix3.rs), transliterated as
written (`other[(r, c)]` is `other.n[c][r]`): the eighth and ninth
arguments read `self.n[1][2]` in their first terms. -/
def mul (m other : Matrix3) : Matrix3 :=
  new (m.n0.x * other.n0.x + m.n1.x * other.n0.y + m.n2.x * other.n0.z)
      (m.n0.x * other.n1.x + m.n1.x * other.n1.y + m.n2.x * other.n1.z)
      (m.n0.x * other.n2.x + m.n1.x * other.n2.y + m.n2.x * other.n2.z)
      (m.n0.y * other.n0.x + m.n1.y * other.n0.y + m.n2.y * other.n0.z)
      (m.n0.y * other.n1.x + m.n1.y * other.n1.y + m.n2.y * other.n1.z)
      (m.n0.y * other.n2.x + m.n1.y * other.n2.y + m.n2.y * other.n2.z)
      (m.n0.z * other.n0.x + m.n1.z * other.n0.y + m.n2.z * other.n0.z)
      (m.n1.z * other.n1.x + m.n1.z * other.n1.y + m.n2.z * other.n1.z)
      (m.n1.z * other.n2.x + m.n1.z * other.n2.y + m.n2.z * other.n2.z)

end Matrix3

/-- Rust `Transform4` (src/transform4.rs): `elements: [[f32; 4]; 4]`,
column-major; field `eCR` is `elements[C][R]` (column `C`, row `R`). -/
structure Transform4 where
  e00 : ℚ
  e01 : ℚ
  e02 : ℚ
  e03 : ℚ
  e10 : ℚ
  e11 : ℚ
  e12 : ℚ
  e13 : ℚ
  e20 : ℚ
  e21 : ℚ
  e22 : ℚ
  e23 : ℚ
  e30 : ℚ
  e31 : ℚ
  e32 : ℚ
  e33 : ℚ
deriving DecidableEq, Repr

namespace Transform4

/-- Rust `Transform4::new(a, …, l)` (src/transform4.rs): row-major arguments
stored as `[[a,e,i,0], [b,f,j,0], [c,g,k,0], [d,h,l,1]]`. -/
def new (a b c d e f g h i j k l : ℚ) : Transform4 :=
  ⟨a, e, i, 0, b, f, j, 0, c, g, k, 0, d, h, l, 1⟩

/-- Rust `elements[col][row]` for in-bounds indices. -/
def el (t : Transform4) (col row : Fin 4) : ℚ :=
  match col, row with
  | 0, 0 => t.e00
  | 0, 1 => t.e01
  | 0, 2 => t.e02
  | 0, 3 => t.e03
  | 1, 0 => t.e10
  | 1, 1 => t.e11
  | 1, 2 => t.e12
  | 1, 3 => t.e13
  | 2, 0 => t.e20
  | 2, 1 => t.e21
  | 2, 2 => t.e22
  | 2, 3 => t.e23
  | 3, 0 => t.e30
  | 3, 1 => t.e31
  | 3, 2 => t.e32
  | 3, 3 => t.e33

/-- Rust `Transform4::vec_at` (src/transform4.rs): first three entries of
column `index` (called by `inverse` and `Line::transform` with 0–3). -/
def vec_at (t : Transform4) (index : Fin 4) : Vector3 :=
  Vector3.new (t.el index 0) (t.el index 1) (t.el index 2)

/-- Rust `Transform4::get_translation` (src/transform4.rs), transliterated as
written: reads `elements[0][3]`, `elements[1][3]`, `elements[2][3]`. -/
def get_translation (t : Transform4) : Point3 :=
  Point3.new t.e03 t.e13 t.e23

/-- Rust `Transform4::set_translation` (src/transform4.rs): writes
`elements[3][0]`, `elements[3][1]`, `elements[3][2]`. -/
def set_translation (t : Transform4) (p : Point3) : Transform4 :=
  { t with e30 := p.x, e31 := p.y, e32 := p.z }

/-- Rust `Transform4::identity` (src/transform4.rs). -/
def identity : Transform4 := new 1 0 0 0 0 1 0 0 0 0 1 0

/-- Rust `Transform4::make_translation` (src/transform4.rs). -/
def make_translation (v : Vector3) : Transform4 :=
  new 1 0 0 v.x 0 1 0 v.y 0 0 1 v.z

/-- Rust `Transform4::make_scale_xyz` (src/transform4.rs). -/
def make_scale_xyz (sx sy sz : ℚ) : Transform4 :=
  new sx 0 0 0 0 sy 0 0 0 0 sz 0

/-- Rust `Transform4::inverse` (src/transform4.rs): the fast affine inverse
built from cross products of the columns, using the source's
`Vector3::cross` and `MulAssign<f32>`. -/
def inverse (t : Transform4) : Transform4 :=
  let a := t.vec_at 0
  let b := t.vec_at 1
  let c := t.vec_at 2
  let d := t.vec_at 3
  let s := a.cross b
  let u := c.cross d
  let inv_det := 1 / s.dot c
  let s := s.smul inv_det
  let u := u.smul inv_det
  let v := c.smul inv_det
  let r0 := b.cross v
  let r1 := v.cross a
  new r0.x r0.y r0.z (-(b.dot u))
      r1.x r1.y r1.z (a.dot u)
      s.x s.y s.z (-(d.dot s))

/-- Rust `impl Mul<Vector3> for Transform4` (src/transform4.rs): applies only
the three linear columns. -/
def mulVector3 (t : Transform4) (other : Vector3) : Vector3 :=
  Vector3.new
    (t.e00 * other.x + t.e10 * other.y + t.e20 * other.z)
    (t.e01 * other.x + t.e11 * other.y + t.e21 * other.z)
    (t.e02 * other.x + t.e12 * other.y + t.e22 * other.z)

/-- Rust `impl Mul<Point3> for Transform4` (src/transform4.rs): the linear
columns applied to the point plus `elements[3][i]`. -/
def mulPoint3 (t : Transform4) (other : Point3) : Point3 :=
  Point3.new
    (t.e00 * other.x + t.e10 * other.y + t.e20 * other.z + t.e30)
    (t.e01 * other.x + t.e11 * other.y + t.e21 * other.z + t.e31)
    (t.e02 * other.x + t.e12 * other.y + t.e22 * other.z + t.e32)

/-- Rust `impl Mul<Transform4> for Transform4` (src/transform4.rs),
transliterated as written (`other[(r, c)]` is `other.elements[c][r]`):
the translation entries of the second and third result rows read
`self.elements[1][0]` and `self.elements[2][0]`. -/
def mul (t other : Transform4) : Transform4 :=
  new (t.e00 * other.e00 + t.e10 * other.e01 + t.e20 * other.e02)
      (t.e00 * other.e10 + t.e10 * other.e11 + t.e20 * other.e12)
      (t.e00 * other.e20 + t.e10 * other.e21 + t.e20 * other.e22)
      (t.e00 * other.e30 + t.e10 * other.e31 + t.e20 * other.e32 + t.e30)
      (t.e01 * other.e00 + t.e11 * other.e01 + t.e21 * other.e02)
      (t.e01 * other.e10 + t.e11 * other.e11 + t.e21 * other.e12)
      (t.e01 * other.e20 + t.e11 * other.e21 + t.e21 * other.e22)
      (t.e01 * other.e30 + t.e10 * other.e31 + t.e20 * other.e32 + t.e31)
      (t.e02 * other.e00 + t.e12 * other.e01 + t.e22 * other.e02)
      (t.e02 * other.e10 + t.e12 * other.e11 + t.e22 * other.e12)
      (t.e02 * other.e20 + t.e12 * other.e21 + t.e22 * other.e22)
      (t.e02 * other.e30 + t.e10 * other.e31 + t.e20 * other.e32 + t.e32)

/-- Rust `impl Index<(usize, usize)> for Transform4` (src/transform4.rs):
`panic!` when `row > 4 || col > 4`; otherwise `elements[col][row]`,
where Rust's array indexing itself panics when `row = 4` or `col = 4`. -/
def index (t : Transform4) (row col : Nat) : Option ℚ :=
  if row > 4 ∨ col > 4 then none
  else if h : row < 4 ∧ col < 4 then some (t.el ⟨col, h.2⟩ ⟨row, h.1⟩)
  else none

end Transform4

/-- C1: for non-singular M, `M * M.inverse()` is claimed to be the
identity component-wise.  At `M = Matrix2::new(1, 2, 0, 1)` (determinant
1) the code's `Mul<Matrix2>` yields `[[1, -2], [2, -4]]`, not the
identity: the product reads transposed entries of `self` and its last
entry uses `self.n[0][1]` where `self.n[1][1]` belongs, while
`Matrix2::inverse` itself is the correct adjugate formula. -/
theorem c1_mul_inverse_not_identity :
    (Matrix2.new 1 2 0 1).determinant ≠ 0 ∧
    Matrix2.mul (Matrix2.new 1 2 0 1) (Matrix2.new 1 2 0 1).inverse =
      Matrix2.new 1 (-2) 2 (-4) ∧
    Matrix2.mul (Matrix2.new 1 2 0 1) (Matrix2.new 1 2 0 1).inverse ≠
      Matrix2.identity := by
  refine ⟨?_, ?_, ?_⟩ <;>
    norm_num [Matrix2.new, Matrix2.mul, Matrix2.inverse, Matrix2.determinant,
      Matrix2.identity, Vector2.new, Matrix2.mk.injEq, Vector2.mk.injEq]

/-- Rust `Quarternion` (src/quarternion.rs): vector part `x`, `y`, `z`,
scalar part `w`. -/
structure Quarternion where
  x : ℚ
  y : ℚ
  z : ℚ
  w : ℚ
deriving DecidableEq, Repr

namespace Quarternion

/-- Rust `Quarternion::get_vector_part` (src/quarternion.rs),
transliterated as written: `Vector3::new(self.x, self.x, self.x)`. -/
def get_vector_part (q : Quarternion) : Vector3 :=
  Vector3.new q.x q.x q.x

/-- Rust `Quarternion::get_rotation_matrix` (src/quarternion.rs): the
standard quaternion-to-matrix formula, row-major arguments to
`Matrix3::new`. -/
def get_rotation_matrix (q : Quarternion) : Matrix3 :=
  let x2 := q.x * q.x
  let y2 := q.y * q.y
  let z2 := q.z * q.z
  let xy := q.x * q.y
  let xz := q.x * q.z
  let yz := q.y * q.z
  let wx := q.w * q.x
  let wy := q.w * q.y
  let wz := q.w * q.z
  Matrix3.new
    (1 - 2 * (y2 + z2)) (2 * (xy - wz)) (2 * (xz + wy))
    (2 * (xy + wz)) (1 - 2 * (x2 + z2)) (2 * (yz - wx))
    (2 * (xz - wy)) (2 * (yz + wx)) (1 - 2 * (x2 + y2))

/-- Rust `Quarternion::transform` (src/quarternion.rs):
`v*(w² − |b|²) + b*(2 v·b) + (b×v)*(2w)` with `b = get_vector_part()`. -/
def transform (q : Quarternion) (v : Vector3) : Vector3 :=
  let b := q.get_vector_part
  let b2 := b.x * b.x + b.y * b.y + b.z * b.z
  ((v.smul (q.w * q.w - b2)).add (b.smul (v.dot b * 2))).add
    ((b.cross v).smul (q.w * 2))

/-- Rust `impl Mul<Quarternion> for Quarternion` (src/quarternion.rs):
the Hamilton product. -/
def mul (q rhs : Quarternion) : Quarternion :=
  ⟨q.w * rhs.x + q.x * rhs.w + q.y * rhs.z - q.z * rhs.y,
   q.w * rhs.y - q.x * rhs.z + q.y * rhs.w + q.z * rhs.x,
   q.w * rhs.z + q.x * rhs.y - q.y * rhs.x + q.z * rhs.w,
   q.w * rhs.w - q.x * rhs.x - q.y * rhs.y - q.z * rhs.z⟩

end Quarternion

/-- Rust `Plane` (src/plane.rs): the implicit surface coefficients. -/
structure Plane where
  x : ℚ
  y : ℚ
  z : ℚ
  w : ℚ
deriving DecidableEq, Repr

namespace Plane

/-- Rust `Plane::get_normal` (src/plane.rs), transliterated as written:
`Vector3::new(self.x, self.x, self.x)`. -/
def get_normal (f : Plane) : Vector3 :=
  Vector3.new f.x f.x f.x

end Plane

/-- Exact value of Rust's `f32::MIN`, the most negative finite `f32`:
`-(2^128 - 2^104)`. -/
def f32MIN : ℚ := -(2 ^ 128 - 2 ^ 104)

/-- Rust `three_planes_intersect` (src/plane.rs): Cramer's rule via cross
products; reports an intersection when `det.fabs() > f32::MIN`.  The
`true`/`false` result with its out-parameter is modelled as
`some`/`none`. -/
def three_planes_intersect (f1 f2 f3 : Plane) : Option Point3 :=
  let n1 := f1.get_normal
  let n2 := f2.get_normal
  let n3 := f3.get_normal
  let n1xn2 := n1.cross n2
  let det := n1xn2.dot n3
  if |det| > f32MIN then
    some (Point3.fromVector3
      (((((n3.cross n2).smul f1.w).add ((n1.cross n3).smul f2.w)).sub
          (n1xn2.smul f3.w)).divs det))
  else none

/-- Rust `Line` (src/line.rs): Plücker direction and moment. -/
structure Line where
  direction : Vector3
  moment : Vector3
deriving DecidableEq, Repr

namespace Line

set_option linter.unusedVariables false in
/-- Rust `Line::transform` (src/line.rs), transliterated as written: the
adjugate-transformed moment is computed and then shadowed by
`let moment = self.moment;` (the line marked `TODO: fix this`), so the
returned moment is the original one. -/
def transform (l : Line) (h : Transform4) : Line :=
  let v1 := (h.vec_at 1).cross (h.vec_at 2)
  let v2 := (h.vec_at 2).cross (h.vec_at 0)
  let v3 := (h.vec_at 0).cross (h.vec_at 1)
  let adj := Matrix3.new_with_vecs v1 v2 v3
  let t := h.get_translation
  let direction := h.mulVector3 l.direction
  let moment := (adj.mulVector3 l.moment).add ((Vector3.fromPoint3 t).cross direction)
  let moment := l.moment
  ⟨direction, moment⟩

end Line

/-- C2: the claim says `Line::transform` maps the moment to the
transpose-adjugate of the linear block applied to the moment plus
`translation × transformed_direction`.  For the line with direction
`(0,0,1)` and moment `(1,0,0)` under the pure scale `h =
make_scale_xyz(2,2,2)` (translation zero, adjugate of the linear block
`4·I`), that is `(4,0,0)`; the code returns the moment unchanged,
`(1,0,0)`, because the computed moment is discarded at the line marked
`TODO: fix this`. -/
theorem c2_line_transform_returns_moment_unchanged :
    (Line.transform ⟨Vector3.new 0 0 1, Vector3.new 1 0 0⟩
        (Transform4.make_scale_xyz 2 2 2)).direction = Vector3.new 0 0 2 ∧
    (Line.transform ⟨Vector3.new 0 0 1, Vector3.new 1 0 0⟩
        (Transform4.make_scale_xyz 2 2 2)).moment = Vector3.new 1 0 0 ∧
    Vector3.new 1 0 0 ≠ Vector3.new 4 0 0 := by
  refine ⟨?_, ?_, ?_⟩ <;>
    norm_num [Line.transform, Transform4.make_scale_xyz, Transform4.new,
      Transform4.mulVector3, Vector3.new, Vector3.mk.injEq]

/-- C3: for the unit quaternion `q = (0, 0, 3/5, 4/5)` and `v = (1,0,0)`,
`q.transform(v)` evaluates to `(16/25, 0, 0)` — `get_vector_part`
returns `(x, x, x) = (0, 0, 0)`, so the rotation degenerates to scaling
by `w²` — while `q.get_rotation_matrix() * v` evaluates to
`(7/25, 24/25, 0)`; the claim says the two agree. -/
theorem c3_transform_ne_rotation_matrix_apply :
    (Quarternion.mk 0 0 (3/5) (4/5)).x ^ 2 + (Quarternion.mk 0 0 (3/5) (4/5)).y ^ 2 +
      (Quarternion.mk 0 0 (3/5) (4/5)).z ^ 2 + (Quarternion.mk 0 0 (3/5) (4/5)).w ^ 2 = 1 ∧
    (Quarternion.mk 0 0 (3/5) (4/5)).transform (Vector3.new 1 0 0) =
      Vector3.new (16/25) 0 0 ∧
    ((Quarternion.mk 0 0 (3/5) (4/5)).get_rotation_matrix).mulVector3 (Vector3.new 1 0 0) =
      Vector3.new (7/25) (24/25) 0 ∧
    (Quarternion.mk 0 0 (3/5) (4/5)).transform (Vector3.new 1 0 0) ≠
      ((Quarternion.mk 0 0 (3/5) (4/5)).get_rotation_matrix).mulVector3 (Vector3.new 1 0 0) := by
  refine ⟨?_, ?_, ?_, ?_⟩ <;>
    norm_num [Quarternion.transform, Quarternion.get_vector_part,
      Quarternion.get_rotation_matrix, Matrix3.new, Matrix3.mulVector3,
      Vector3.new, Vector3.smul, Vector3.add, Vector3.dot, Vector3.cross,
      Vector3.mk.injEq]

/-- C4: for the unit quaternions `q1 = (3/5, 0, 0, 4/5)` and
`q2 = (0, 0, 3/5, 4/5)`, `(q1*q2).get_rotation_matrix()` differs from
`q1.get_rotation_matrix() * q2.get_rotation_matrix()` — at entry (2,1)
the left side is `168/625` while the code's `Mul<Matrix3>` yields
`-408/625`, its (2,1) and (2,2) entries reading `self.n[1][2]` where
`self.n[0][2]` belongs; the claim says they are equal. -/
theorem c4_rotation_matrix_of_product_ne_matrix_product :
    (Quarternion.mul (Quarternion.mk (3/5) 0 0 (4/5))
        (Quarternion.mk 0 0 (3/5) (4/5))).get_rotation_matrix ≠
    Matrix3.mul (Quarternion.get_rotation_matrix (Quarternion.mk (3/5) 0 0 (4/5)))
      (Quarternion.get_rotation_matrix (Quarternion.mk 0 0 (3/5) (4/5))) := by
  norm_num [Quarternion.mul, Quarternion.get_rotation_matrix, Matrix3.mul,
    Matrix3.new, Vector3.new, Matrix3.mk.injEq, Vector3.mk.injEq]

/-- C5: the claim says `three_planes_intersect` on two identical planes
and a third returns the none outcome.  The code compares `det.fabs()`
against `f32::MIN` (the most negative finite float), which every
absolute value exceeds, so it reports an intersection even for
`f1 = f2 = Plane(0,0,1,0)`, `f3 = Plane(0,1,0,0)`. -/
theorem c5_three_planes_intersect_identical_planes_reports_point :
    three_planes_intersect (Plane.mk 0 0 1 0) (Plane.mk 0 0 1 0)
      (Plane.mk 0 1 0 0) ≠ none := by
  norm_num [three_planes_intersect, Plane.get_normal, f32MIN,
    Vector3.new, Vector3.cross, Vector3.dot]
  exact Option.some_ne_none _

/-- C6: the claim says `Matrix3::identity() * v == v` for every `v`.  The
code's `identity()` is `new(1,0,0, 0,0,1, 0,0,0)`, so at `v = (0,0,1)`
the product is `(0,1,0) ≠ v`. -/
theorem c6_identity_mul_vector_not_v :
    Matrix3.mulVector3 Matrix3.identity (Vector3.new 0 0 1) = Vector3.new 0 1 0 ∧
    Vector3.new 0 1 0 ≠ Vector3.new 0 0 1 := by
  refine ⟨?_, ?_⟩ <;>
    norm_num [Matrix3.identity, Matrix3.new, Matrix3.mulVector3,
      Vector3.new, Vector3.mk.injEq]

/-- C7: the claim says that after `t.set_translation(&p)`,
`t.get_translation()` returns `p`.  `set_translation` writes column 3
(`elements[3][i]`) but `get_translation` reads the stored bottom row
(`elements[i][3]`), which is `(0,0,0)` for `t = identity()`; so with
`p = (1,2,3)` the read-back is `(0,0,0) ≠ p`. -/
theorem c7_get_translation_after_set_mismatch :
    (Transform4.identity.set_translation (Point3.new 1 2 3)).get_translation =
      Point3.new 0 0 0 ∧
    Point3.new 0 0 0 ≠ Point3.new 1 2 3 := by
  refine ⟨?_, ?_⟩ <;>
    norm_num [Transform4.identity, Transform4.new, Transform4.set_translation,
      Transform4.get_translation, Point3.new, Point3.mk.injEq]

/-- C8: `make_translation(Vector3::new(1,2,3)) * Point3::new(0,0,0)`
equals `Point3::new(1,2,3)` exactly, and in general multiplying a
`Transform4` by a `Point3` applies the linear block (the `Mul<Vector3>`
impl) and then adds the translation column (`vec_at(3)`). -/
theorem c8_mul_point_is_linear_block_plus_translation :
    Transform4.mulPoint3 (Transform4.make_translation (Vector3.new 1 2 3))
      (Point3.new 0 0 0) = Point3.new 1 2 3 ∧
    ∀ (t : Transform4) (p : Point3),
      t.mulPoint3 p =
        Point3.fromVector3 ((t.mulVector3 (Vector3.fromPoint3 p)).add (t.vec_at 3)) := by
  constructor
  · norm_num [Transform4.make_translation, Transform4.new, Transform4.mulPoint3,
      Vector3.new, Point3.new]
  · intro t p
    rfl

/-- C9: element access with `row ≥ N` or `col ≥ N` panics and never
returns a value: for `Matrix2` (N = 2) both the `(row, col)` index
operator and `at(row, col)` fail their assertions, and for `Transform4`
(N = 4) the index operator either hits its explicit `panic!`
(`row > 4 || col > 4`) or the array bounds panic (`row = 4` or
`col = 4`). -/
theorem c9_index_out_of_bounds_is_none :
    ∀ (m : Matrix2) (t : Transform4) (row col : Nat),
      (2 ≤ row ∨ 2 ≤ col →
        Matrix2.index m row col = none ∧ Matrix2.at_opt m row col = none) ∧
      (4 ≤ row ∨ 4 ≤ col → Transform4.index t row col = none) := by
  intro m t row col
  constructor
  · intro h
    constructor
    · simp only [Matrix2.index]
      rw [if_neg (by omega)]
    · by_cases hc : col < 2
      · have hr : ¬ row < 2 := by omega
        simp [Matrix2.at_opt, Matrix2.index_col, Vector2.index, Option.bind, hc, hr]
      · simp [Matrix2.at_opt, Matrix2.index_col, hc]
  · intro h
    simp only [Transform4.index]
    by_cases h1 : row > 4 ∨ col > 4
    · rw [if_pos h1]
    · rw [if_neg h1, dif_neg (by omega)]

/-- Witness for C9 at `row = 4`, `col = 0` on the identity values. -/
theorem c9_witness :
    Matrix2.index Matrix2.identity 4 0 = none ∧
    Matrix2.at_opt Matrix2.identity 4 0 = none ∧
    Transform4.index Transform4.identity 4 0 = none := by
  have h := c9_index_out_of_bounds_is_none Matrix2.identity Transform4.identity 4 0
  exact ⟨(h.1 (by decide)).1, (h.1 (by decide)).2, h.2 (by decide)⟩

/-- C10: `set_translation` writes only `elements[3][0..3]`, so every
entry of the three linear columns (columns 0, 1 and 2, including their
stored bottom-row entries) is unchanged. -/
theorem c10_set_translation_preserves_linear_columns :
    ∀ (t : Transform4) (p : Point3),
      (t.set_translation p).e00 = t.e00 ∧ (t.set_translation p).e01 = t.e01 ∧
      (t.set_translation p).e02 = t.e02 ∧ (t.set_translation p).e03 = t.e03 ∧
      (t.set_translation p).e10 = t.e10 ∧ (t.set_translation p).e11 = t.e11 ∧
      (t.set_translation p).e12 = t.e12 ∧ (t.set_translation p).e13 = t.e13 ∧
      (t.set_translation p).e20 = t.e20 ∧ (t.set_translation p).e21 = t.e21 ∧
      (t.set_translation p).e22 = t.e22 ∧ (t.set_translation p).e23 = t.e23 := by
  intro t p
  exact ⟨rfl, rfl, rfl, rfl, rfl, rfl, rfl, rfl, rfl, rfl, rfl, rfl⟩

end MathEngine
